import Mathlib

/-
Formal model of the technical-indicator and signal-generation engine of
src/main.py (MCXTradingSystem.calculate_technical_indicators, lines 253-315,
and MCXTradingSystem.generate_signals, lines 317-405).

Modelling conventions:
  * pandas float64 values are idealised as exact rationals;
  * the float NaN is modelled by Option (none = NaN);
  * pandas rolling(window=w, min_periods=1) over a clean column is the
    growing window of the last min(i+1, w) values ending at index i;
  * the Bollinger standard deviation takes a square root, which is
    irrational in general, so the two band columns live in Option Real
    while every other column stays in computable rationals;
  * a DataFrame is a state: the list of fetched candles (the columns
    timestamp/open/high/low/close/volume produced by get_historical_data)
    plus the named columns later assigned into the same object.
    Column assignment (df[name] = ...) mutates that state in place, so
    calculate_technical_indicators is a state transformer whose result is
    both the returned frame and the post-call state of its argument;
  * display rounding of the indicators payload (round(x, 2) / round(x, 4))
    is not modelled; no verified property depends on it;
  * the timestamp column is not modelled; nothing in the two modelled
    functions reads it.
-/

namespace MCX

/- ---------------------------------------------------------------- -/
/- Rolling statistics (pandas rolling(w, min_periods=1) on clean data) -/
/- ---------------------------------------------------------------- -/

/-- Arithmetic mean of a list of rationals (0 for the empty list). -/
def listMean (l : List ℚ) : ℚ := l.sum / l.length

/-- The growing window of at most `w` values ending at index `i`:
pandas `rolling(window=w, min_periods=1)` applied at row `i`. -/
def windowAt (w : ℕ) (xs : List ℚ) (i : ℕ) : List ℚ :=
  (xs.take (i + 1)).drop (i + 1 - w)

/-- Rolling mean with growing window: `df[c].rolling(window=w, min_periods=1).mean()`
at row `i`.  Used for SMA_10/20/50, the RSI gain/loss averages, BB_Middle,
ATR and Volume_SMA in src/main.py lines 271-308. -/
def sma (w : ℕ) (xs : List ℚ) (i : ℕ) : ℚ := listMean (windowAt w xs i)

/- ---------------------------------------------------------------- -/
/- Exponential moving averages: ewm(span=s, adjust=False, min_periods=1) -/
/- ---------------------------------------------------------------- -/

/-- Tail of the EMA recurrence: given the previous smoothed value `y`,
produce the smoothed values of the remaining inputs
(`y_i = a*x_i + (1-a)*y_{i-1}`). -/
def emaFrom (a : ℚ) (y : ℚ) : List ℚ → List ℚ
  | [] => []
  | x :: xs => (a * x + (1 - a) * y) :: emaFrom a (a * x + (1 - a) * y) xs

/-- pandas `ewm(alpha=a, adjust=False, min_periods=1).mean()` on a clean
column: seeded with the first value, then the standard recurrence. -/
def emaList (a : ℚ) : List ℚ → List ℚ
  | [] => []
  | x :: xs => x :: emaFrom a x xs

/-- pandas `ewm(span=s, adjust=False, min_periods=1).mean()`:
smoothing factor `alpha = 2/(s+1)`.  src/main.py lines 276-281. -/
def emaSmooth (s : ℕ) (xs : List ℚ) : List ℚ := emaList (2 / ((s : ℚ) + 1)) xs

/-- MACD column: `EMA_12 - EMA_26` (src/main.py line 280). -/
def macdList (xs : List ℚ) : List ℚ :=
  List.zipWith (fun a b => a - b) (emaSmooth 12 xs) (emaSmooth 26 xs)

/-- Signal column: `MACD.ewm(span=9, adjust=False, min_periods=1).mean()`
(src/main.py line 281). -/
def signalList (xs : List ℚ) : List ℚ := emaSmooth 9 (macdList xs)

/-- MACD_Histogram column: `MACD - Signal` (src/main.py line 282). -/
def histList (xs : List ℚ) : List ℚ :=
  List.zipWith (fun a b => a - b) (macdList xs) (signalList xs)

/- ---------------------------------------------------------------- -/
/- RSI (src/main.py lines 284-290)                                   -/
/- ---------------------------------------------------------------- -/

/-- `close.diff()`: the list of successive differences (the leading NaN is
not materialised here; `gainList`/`lossList` below reinsert the 0 that
`where` turns it into). -/
def deltaList (xs : List ℚ) : List ℚ :=
  List.zipWith (fun a b => b - a) xs xs.tail

/-- `delta.where(delta > 0, 0)`: the leading NaN of `diff` compares false
against 0 and is replaced by 0, each later delta is kept when positive. -/
def gainList (xs : List ℚ) : List ℚ :=
  match xs with
  | [] => []
  | _ :: _ => 0 :: (deltaList xs).map (fun d => max d 0)

/-- `-delta.where(delta < 0, 0)`: 0 at index 0, `max (-delta) 0` later. -/
def lossList (xs : List ℚ) : List ℚ :=
  match xs with
  | [] => []
  | _ :: _ => 0 :: (deltaList xs).map (fun d => max (-d) 0)

/-- 14-window growing average of gains at row `i`. -/
def avgGain (xs : List ℚ) (i : ℕ) : ℚ := sma 14 (gainList xs) i

/-- 14-window growing average of losses at row `i`. -/
def avgLoss (xs : List ℚ) (i : ℕ) : ℚ := sma 14 (lossList xs) i

/-- The RSI column after the final fill:
`rs = gain / loss.replace(0, np.nan)`, `RSI = 100 - 100/(1+rs)`,
`RSI = RSI.fillna(50)`.  When the average loss is exactly 0, `rs` is NaN,
hence RSI is NaN, hence the fill produces 50 (whatever the average gain);
otherwise the arithmetic is NaN-free and the fill is the identity. -/
def rsi (xs : List ℚ) (i : ℕ) : ℚ :=
  if avgLoss xs i = 0 then 50
  else 100 - 100 / (1 + avgGain xs i / avgLoss xs i)

/- ---------------------------------------------------------------- -/
/- Bollinger bands (src/main.py lines 292-296)                       -/
/- ---------------------------------------------------------------- -/

/-- BB_Middle column: the 20-window growing SMA of closes. -/
def bbMiddle (xs : List ℚ) (i : ℕ) : ℚ := sma 20 xs i

/-- The squared `rolling(window=20, min_periods=1).std()` at row `i`:
pandas sample variance (ddof=1, i.e. divide by N-1), which is NaN when the
window holds a single observation. -/
def bbVar (xs : List ℚ) (i : ℕ) : Option ℚ :=
  let w := windowAt 20 xs i
  if w.length < 2 then none
  else some (((w.map (fun x => (x - listMean w) ^ 2)).sum) / ((w.length - 1 : ℕ) : ℚ))

/-- BB_Upper column: `BB_Middle + 2 * std`; NaN exactly where the rolling
std is NaN. -/
noncomputable def bbUpper (xs : List ℚ) (i : ℕ) : Option ℝ :=
  (bbVar xs i).map (fun v => ((bbMiddle xs i : ℚ) : ℝ) + Real.sqrt ((v : ℚ) : ℝ) * 2)

/-- BB_Lower column: `BB_Middle - 2 * std`. -/
noncomputable def bbLower (xs : List ℚ) (i : ℕ) : Option ℝ :=
  (bbVar xs i).map (fun v => ((bbMiddle xs i : ℚ) : ℝ) - Real.sqrt ((v : ℚ) : ℝ) * 2)

/- ---------------------------------------------------------------- -/
/- Candles and ATR (src/main.py lines 298-304)                       -/
/- ---------------------------------------------------------------- -/

/-- One OHLCV row of the fetched DataFrame. -/
structure Candle where
  open_ : ℚ
  high : ℚ
  low : ℚ
  close : ℚ
  volume : ℚ
deriving DecidableEq

def closes (s : List Candle) : List ℚ := s.map Candle.close

def volumes (s : List Candle) : List ℚ := s.map Candle.volume

/-- True ranges after the first row: `max(high-low, |high-prev_close|,
|low-prev_close|)` (NaN never arises because prev_close exists). -/
def trRest (prev : Candle) : List Candle → List ℚ
  | [] => []
  | c :: rest =>
      max (c.high - c.low) (max |c.high - prev.close| |c.low - prev.close|) :: trRest c rest

/-- The true-range column: at row 0, `close.shift()` is NaN, so the two
shifted members are NaN and the row maximum (pandas skipna) is `high-low`. -/
def trList : List Candle → List ℚ
  | [] => []
  | c :: rest => (c.high - c.low) :: trRest c rest

/-- The ATR column: `true_range.rolling(14, min_periods=1).mean()`. -/
def atr (s : List Candle) (i : ℕ) : ℚ := sma 14 (trList s) i

/- ---------------------------------------------------------------- -/
/- DataFrame state                                                    -/
/- ---------------------------------------------------------------- -/

/-- A materialised column: a cell per row index (none = NaN or out of range). -/
def Col : Type := ℕ → Option ℝ

/-- The state of one pandas DataFrame object: the fetched candles (its
original columns) plus every column assigned into it afterwards. -/
structure DFState where
  series : List Candle
  extra : List (String × Col)

/-- `df[name] = f`: replace the column if present, else append it. -/
def setCol (name : String) (f : Col) (cols : List (String × Col)) : List (String × Col) :=
  if (cols.lookup name).isSome then
    cols.map (fun p => if p.1 = name then (name, f) else p)
  else cols ++ [(name, f)]

/-- A total rational row function as a column of `n` cells. -/
def colOf (f : ℕ → ℚ) (n : ℕ) : Col :=
  fun i => if i < n then some ((f i : ℚ) : ℝ) else none

/-- A NaN-able real row function as a column of `n` cells. -/
def colOfO (f : ℕ → Option ℝ) (n : ℕ) : Col :=
  fun i => if i < n then f i else none

/-- The fourteen indicator columns that src/main.py lines 270-308 assign
into the frame, in source order, computed from the candle rows. -/
noncomputable def indicatorCols (s : List Candle) : List (String × Col) :=
  [("SMA_10", colOf (sma 10 (closes s)) s.length),
   ("SMA_20", colOf (sma 20 (closes s)) s.length),
   ("SMA_50", colOf (sma 50 (closes s)) s.length),
   ("EMA_12", colOf (fun i => (emaSmooth 12 (closes s)).getD i 0) s.length),
   ("EMA_26", colOf (fun i => (emaSmooth 26 (closes s)).getD i 0) s.length),
   ("MACD", colOf (fun i => (macdList (closes s)).getD i 0) s.length),
   ("Signal", colOf (fun i => (signalList (closes s)).getD i 0) s.length),
   ("MACD_Histogram", colOf (fun i => (histList (closes s)).getD i 0) s.length),
   ("RSI", colOf (rsi (closes s)) s.length),
   ("BB_Middle", colOf (bbMiddle (closes s)) s.length),
   ("BB_Upper", colOfO (bbUpper (closes s)) s.length),
   ("BB_Lower", colOfO (bbLower (closes s)) s.length),
   ("ATR", colOf (atr s) s.length),
   ("Volume_SMA", colOf (sma 20 (volumes s)) s.length)]

/-- src/main.py lines 253-315.  On an empty frame the function logs and
returns its argument unchanged; otherwise it assigns the fourteen
indicator columns (in source order) into the frame and returns it.
The `volume` column always exists in a fetched frame, so Volume_SMA is
always assigned. -/
noncomputable def calculate_technical_indicators (df : DFState) : DFState :=
  if df.series = [] then df
  else
    { df with
      extra := (indicatorCols df.series).foldl (fun acc p => setCol p.1 p.2 acc) df.extra }

/- ---------------------------------------------------------------- -/
/- Signal generation (src/main.py lines 317-405)                     -/
/- ---------------------------------------------------------------- -/

/-- The result dictionary of generate_signals.  Absent dictionary keys are
`none`; `signals` is the ordered tag list. -/
structure SignalResult where
  signal : String
  reason : Option String := none
  error : Option String := none
  indicators : Option (List (String × Option ℝ)) := none
  signals : Option (List String) := none
  bullish_count : Option ℕ := none
  bearish_count : Option ℕ := none

/-- The base columns of a fetched frame, by pandas column name. -/
def baseField (name : String) : Option (Candle → ℚ) :=
  if name = "open" then some Candle.open_
  else if name = "high" then some Candle.high
  else if name = "low" then some Candle.low
  else if name = "close" then some Candle.close
  else if name = "volume" then some Candle.volume
  else none

/-- Column lookup on the frame state (base candle columns first, then the
assigned columns). -/
def getCol (df : DFState) (name : String) : Option Col :=
  match baseField name with
  | some f => some (colOf (fun i => (df.series.map f).getD i 0) df.series.length)
  | none => df.extra.lookup name

/-- `df.iloc[-1][name]`: the cell of column `name` at the last row. -/
def cellAt (df : DFState) (name : String) : Option ℝ :=
  (getCol df name).bind (fun f => f (df.series.length - 1))

def requiredCols : List String :=
  ["SMA_10", "SMA_20", "MACD", "Signal", "MACD_Histogram",
   "RSI", "close", "BB_Lower", "BB_Upper"]

/-- `[col for col in required_cols if col not in df.columns or pd.isna(latest[col])]`. -/
def missingOf (df : DFState) : List String :=
  requiredCols.filter (fun c => (getCol df c).isNone || (cellAt df c).isNone)

/-- Python substring membership `needle in hay` on the character lists. -/
def subChars (needle : List Char) : List Char → Bool
  | [] => needle.isEmpty
  | c :: cs => needle.isPrefixOf (c :: cs) || subChars needle cs

def strIn (needle hay : String) : Bool := subChars needle.data hay.data

/-- `'Bullish' in s or 'Oversold' in s or 'bounce' in s` (line 375). -/
def isBullishTag (s : String) : Bool :=
  strIn "Bullish" s || strIn "Oversold" s || strIn "bounce" s

/-- `'Bearish' in s or 'Overbought' in s or 'reversal' in s` (line 376). -/
def isBearishTag (s : String) : Bool :=
  strIn "Bearish" s || strIn "Overbought" s || strIn "reversal" s

/-- The tag list built by lines 350-372, in source order, from the latest
values of the nine required columns. -/
noncomputable def tagsOf (s10 s20 m sg h r c bl bu : ℝ) : List String :=
  (if s10 > s20 then ["Bullish: SMA10 > SMA20"]
   else if s10 < s20 then ["Bearish: SMA10 < SMA20"] else []) ++
  (if m > sg ∧ h > 0 then ["Bullish: MACD above Signal"]
   else if m < sg ∧ h < 0 then ["Bearish: MACD below Signal"] else []) ++
  (if r < 30 then ["Oversold: RSI < 30"]
   else if r > 70 then ["Overbought: RSI > 70"] else []) ++
  (if c < bl then ["Near Lower Band: Potential bounce"]
   else if c > bu then ["Near Upper Band: Potential reversal"] else [])

/-- Python list display of the missing-column names. -/
def pyStrList (l : List String) : String :=
  "[" ++ String.intercalate ", " (l.map (fun s => "\x27" ++ s ++ "\x27")) ++ "]"

/-- Lines 350-401: the branch of generate_signals reached when the length
gate and the missing-columns check both pass.  The nine guarded reads are
all defined here, so `getD 0` only names the value the guard established.
Accessing `latest[\x27ATR\x27]` while building the result dictionary is the
one unguarded read: on a frame without an ATR column it raises KeyError,
which the enclosing except turns into HOLD plus the error text. -/
noncomputable def mainResult (df : DFState) : SignalResult :=
  let s10 := (cellAt df "SMA_10").getD 0
  let s20 := (cellAt df "SMA_20").getD 0
  let m := (cellAt df "MACD").getD 0
  let sg := (cellAt df "Signal").getD 0
  let hh := (cellAt df "MACD_Histogram").getD 0
  let r := (cellAt df "RSI").getD 0
  let c := (cellAt df "close").getD 0
  let bl := (cellAt df "BB_Lower").getD 0
  let bu := (cellAt df "BB_Upper").getD 0
  let sigs := tagsOf s10 s20 m sg hh r c bl bu
  let bull := (sigs.filter isBullishTag).length
  let bear := (sigs.filter isBearishTag).length
  let overall :=
    if bear < bull ∧ 2 ≤ bull then "BUY"
    else if bull < bear ∧ 2 ≤ bear then "SELL"
    else "HOLD"
  match getCol df "ATR" with
  | none => { signal := "HOLD", error := some "\x27ATR\x27" }
  | some fATR =>
    { signal := overall,
      indicators := some
        [("price", some c), ("SMA_10", some s10), ("SMA_20", some s20),
         ("RSI", some r), ("MACD", some m), ("ATR", fATR (df.series.length - 1))],
      signals := some sigs,
      bullish_count := some bull,
      bearish_count := some bear }

/-- src/main.py lines 317-405.  `df is None or df.empty or len(df) < 20`
collapses to the one length test because an empty frame has length 0. -/
noncomputable def generate_signals (odf : Option DFState) : SignalResult :=
  match odf with
  | none => { signal := "HOLD", reason := some "Insufficient data" }
  | some df =>
    if df.series.length < 20 then { signal := "HOLD", reason := some "Insufficient data" }
    else if missingOf df ≠ [] then
      { signal := "HOLD",
        reason := some ("Missing indicators: " ++ pyStrList (missingOf df)),
        indicators := some [("price", cellAt df "close")] }
    else mainResult df

/-- The per-symbol pipeline of analyze_commodity (lines 427-432): enrich the
fetched frame in place, then aggregate the enriched frame.  The pair is the
post-call frame state together with the signal dictionary. -/
noncomputable def pipeline (df : DFState) : DFState × SignalResult :=
  let df2 := calculate_technical_indicators df
  (df2, generate_signals (some df2))

/- ---------------------------------------------------------------- -/
/- Reference formula and concrete inputs used by the theorems        -/
/- ---------------------------------------------------------------- -/

/-- Bessel-corrected sample variance of a window, the formula the spec
gives for the squared Bollinger standard deviation; used to state the
band structure independently of `bbVar`. -/
def sampleVar (l : List ℚ) : ℚ :=
  ((l.map (fun x => (x - listMean l) ^ 2)).sum) / ((l.length - 1 : ℕ) : ℚ)

/-- A candle whose five price/volume fields all carry the same value. -/
def constCandle (P : ℚ) : Candle := ⟨P, P, P, P, P⟩

/-- A series of n identical candles at price P. -/
def constSeries (P : ℚ) (n : ℕ) : List Candle := List.replicate n (constCandle P)

/-- One-candle frame fresh from the fetch step. -/
def dfOne : DFState := ⟨[constCandle 1], []⟩

/-- A column whose every cell is the real number 1. -/
def oneCol : Col := fun _ => some 1

/-- A 20-row frame whose non-base required columns and ATR are all-ones
columns; every required indicator is defined at the last row. -/
def df20 : DFState :=
  ⟨List.replicate 20 (constCandle 1),
   [("SMA_10", oneCol), ("SMA_20", oneCol), ("MACD", oneCol), ("Signal", oneCol),
    ("MACD_Histogram", oneCol), ("RSI", oneCol), ("BB_Lower", oneCol),
    ("BB_Upper", oneCol), ("ATR", oneCol)]⟩

/-- The end-to-end scenario input: 25 daily candles whose closes rise from
100 to 124 in unit steps, volumes constant 1000 (open/high/low set to the
close; the verified properties read only close and the indicator columns). -/
def series25 : List Candle :=
  (List.range 25).map (fun k : ℕ =>
    ⟨(100 : ℚ) + k, (100 : ℚ) + k, (100 : ℚ) + k, (100 : ℚ) + k, 1000⟩)

/- ---------------------------------------------------------------- -/
/- General lemmas                                                    -/
/- ---------------------------------------------------------------- -/

theorem listMean_replicate {k : ℕ} (P : ℚ) (hk : k ≠ 0) :
    listMean (List.replicate k P) = P := by
  have : (k : ℚ) ≠ 0 := Nat.cast_ne_zero.mpr hk
  simp [listMean, List.sum_replicate, nsmul_eq_mul]
  field_simp

theorem windowAt_replicate (w n i : ℕ) (P : ℚ) :
    windowAt w (List.replicate n P) i = List.replicate (min (i + 1) n - (i + 1 - w)) P := by
  simp [windowAt, List.take_replicate, List.drop_replicate]

theorem sma_replicate {w n i : ℕ} (P : ℚ) (hw : w ≠ 0) (hi : i < n) :
    sma w (List.replicate n P) i = P := by
  rw [sma, windowAt_replicate, listMean_replicate]
  omega

theorem getD_replicate {α : Type _} {n m : ℕ} (hm : m < n) (x d : α) :
    (List.replicate n x).getD m d = x := by
  induction n generalizing m with
  | zero => omega
  | succ k ih =>
    cases m with
    | zero => simp [List.replicate_succ]
    | succ j =>
      rw [List.replicate_succ, List.getD_cons_succ]
      exact ih (by omega)

theorem emaFrom_replicate (a P : ℚ) (m : ℕ) :
    emaFrom a P (List.replicate m P) = List.replicate m P := by
  induction m with
  | zero => rfl
  | succ k ih =>
    have hP : a * P + (1 - a) * P = P := by ring
    simp only [List.replicate_succ, emaFrom, hP]
    rw [ih]

theorem emaList_replicate (a P : ℚ) (n : ℕ) :
    emaList a (List.replicate n P) = List.replicate n P := by
  cases n with
  | zero => rfl
  | succ k =>
    simp only [List.replicate_succ, emaList]
    rw [emaFrom_replicate]

theorem zipWith_replicate_min {α β γ : Type _} (f : α → β → γ) (a : α) (b : β) :
    ∀ n m, List.zipWith f (List.replicate n a) (List.replicate m b) =
      List.replicate (min n m) (f a b)
  | 0, _ => by simp
  | _ + 1, 0 => by simp
  | n + 1, m + 1 => by
    simp only [List.replicate_succ, List.zipWith, Nat.succ_min_succ]
    rw [zipWith_replicate_min f a b n m]

theorem macdList_replicate (P : ℚ) (n : ℕ) :
    macdList (List.replicate n P) = List.replicate n 0 := by
  simp [macdList, emaSmooth, emaList_replicate, zipWith_replicate_min]

theorem signalList_replicate (P : ℚ) (n : ℕ) :
    signalList (List.replicate n P) = List.replicate n 0 := by
  simp [signalList, macdList_replicate, emaSmooth, emaList_replicate]

theorem histList_replicate (P : ℚ) (n : ℕ) :
    histList (List.replicate n P) = List.replicate n 0 := by
  simp [histList, macdList_replicate, signalList_replicate, zipWith_replicate_min]

theorem deltaList_replicate (P : ℚ) (n : ℕ) :
    deltaList (List.replicate n P) = List.replicate (n - 1) 0 := by
  cases n with
  | zero => rfl
  | succ k =>
    simp only [deltaList, List.replicate_succ, List.tail_cons]
    rw [← List.replicate_succ, zipWith_replicate_min]
    simp only [sub_self]
    congr 1
    omega

theorem gainList_replicate (P : ℚ) (k : ℕ) :
    gainList (List.replicate (k + 1) P) = List.replicate (k + 1) 0 := by
  rw [List.replicate_succ, gainList, ← List.replicate_succ, deltaList_replicate]
  simp [List.map_replicate, List.replicate_succ]

theorem lossList_replicate (P : ℚ) (k : ℕ) :
    lossList (List.replicate (k + 1) P) = List.replicate (k + 1) 0 := by
  rw [List.replicate_succ, lossList, ← List.replicate_succ, deltaList_replicate]
  simp [List.map_replicate, List.replicate_succ]

theorem avgLoss_replicate (P : ℚ) {n i : ℕ} (hi : i < n) :
    avgLoss (List.replicate n P) i = 0 := by
  obtain ⟨k, rfl⟩ : ∃ k, n = k + 1 := ⟨n - 1, by omega⟩
  rw [avgLoss, lossList_replicate, sma_replicate 0 (by norm_num) hi]

theorem rsi_replicate (P : ℚ) {n i : ℕ} (hi : i < n) :
    rsi (List.replicate n P) i = 50 := by
  rw [rsi, if_pos (avgLoss_replicate P hi)]

theorem bbVar_replicate (P : ℚ) {n i : ℕ} (h1 : 1 ≤ i) (hi : i < n) :
    bbVar (List.replicate n P) i = some 0 := by
  simp only [bbVar, windowAt_replicate, List.length_replicate]
  rw [if_neg (by omega)]
  simp only [listMean_replicate P
    (show min (i + 1) n - (i + 1 - 20) ≠ 0 by omega), List.map_replicate]
  simp

theorem bbMiddle_replicate (P : ℚ) {n i : ℕ} (hi : i < n) :
    bbMiddle (List.replicate n P) i = P := by
  rw [bbMiddle]
  exact sma_replicate P (by norm_num) hi

theorem bbUpper_replicate (P : ℚ) {n i : ℕ} (h1 : 1 ≤ i) (hi : i < n) :
    bbUpper (List.replicate n P) i = some ((P : ℝ)) := by
  rw [bbUpper, bbVar_replicate P h1 hi]
  simp [bbMiddle_replicate P hi]

theorem bbLower_replicate (P : ℚ) {n i : ℕ} (h1 : 1 ≤ i) (hi : i < n) :
    bbLower (List.replicate n P) i = some ((P : ℝ)) := by
  rw [bbLower, bbVar_replicate P h1 hi]
  simp [bbMiddle_replicate P hi]

theorem constCandle_high (P : ℚ) : (constCandle P).high = P := rfl

theorem constCandle_low (P : ℚ) : (constCandle P).low = P := rfl

theorem constCandle_close (P : ℚ) : (constCandle P).close = P := rfl

theorem closes_constSeries (P : ℚ) (n : ℕ) :
    closes (constSeries P n) = List.replicate n P := by
  simp [closes, constSeries, List.map_replicate, constCandle]

theorem trRest_replicate (P : ℚ) (k : ℕ) :
    trRest (constCandle P) (List.replicate k (constCandle P)) = List.replicate k 0 := by
  induction k with
  | zero => rfl
  | succ j ih =>
    simp only [List.replicate_succ, trRest, constCandle_high, constCandle_low,
      constCandle_close]
    rw [ih]
    simp [List.replicate_succ]

theorem trList_constSeries (P : ℚ) (n : ℕ) :
    trList (constSeries P n) = List.replicate n 0 := by
  cases n with
  | zero => rfl
  | succ k =>
    simp only [constSeries, List.replicate_succ, trList, constCandle_high,
      constCandle_low, trRest_replicate]
    simp [List.replicate_succ]

theorem atr_constSeries (P : ℚ) {n i : ℕ} (hi : i < n) :
    atr (constSeries P n) i = 0 := by
  rw [atr, trList_constSeries, sma_replicate 0 (by norm_num) hi]

/- Generic facts about the enriched frame produced by
calculate_technical_indicators on a freshly fetched frame. -/

theorem setCol_app (name : String) (f : Col) (cols : List (String × Col))
    (h : cols.lookup name = none) : setCol name f cols = cols ++ [(name, f)] := by
  rw [setCol, h]
  rfl

theorem foldl_setCol_14 (c1 c2 c3 c4 c5 c6 c7 c8 c9 c10 c11 c12 c13 c14 : Col) :
    List.foldl (fun acc p => setCol p.1 p.2 acc) []
      [("SMA_10", c1), ("SMA_20", c2), ("SMA_50", c3), ("EMA_12", c4),
       ("EMA_26", c5), ("MACD", c6), ("Signal", c7), ("MACD_Histogram", c8),
       ("RSI", c9), ("BB_Middle", c10), ("BB_Upper", c11), ("BB_Lower", c12),
       ("ATR", c13), ("Volume_SMA", c14)] =
      [("SMA_10", c1), ("SMA_20", c2), ("SMA_50", c3), ("EMA_12", c4),
       ("EMA_26", c5), ("MACD", c6), ("Signal", c7), ("MACD_Histogram", c8),
       ("RSI", c9), ("BB_Middle", c10), ("BB_Upper", c11), ("BB_Lower", c12),
       ("ATR", c13), ("Volume_SMA", c14)] := by
  simp only [List.foldl]
  rw [show setCol "SMA_10" c1 [] =
      [("SMA_10", c1)] from setCol_app _ _ _ rfl]
  rw [show setCol "SMA_20" c2 [("SMA_10", c1)] =
      [("SMA_10", c1), ("SMA_20", c2)] from setCol_app _ _ _ rfl]
  rw [show setCol "SMA_50" c3 [("SMA_10", c1), ("SMA_20", c2)] =
      [("SMA_10", c1), ("SMA_20", c2), ("SMA_50", c3)] from setCol_app _ _ _ rfl]
  rw [show setCol "EMA_12" c4 [("SMA_10", c1), ("SMA_20", c2), ("SMA_50", c3)] =
      [("SMA_10", c1), ("SMA_20", c2), ("SMA_50", c3), ("EMA_12", c4)] from setCol_app _ _ _ rfl]
  rw [show setCol "EMA_26" c5 [("SMA_10", c1), ("SMA_20", c2), ("SMA_50", c3), ("EMA_12", c4)] =
      [("SMA_10", c1), ("SMA_20", c2), ("SMA_50", c3), ("EMA_12", c4), ("EMA_26", c5)] from setCol_app _ _ _ rfl]
  rw [show setCol "MACD" c6 [("SMA_10", c1), ("SMA_20", c2), ("SMA_50", c3), ("EMA_12", c4), ("EMA_26", c5)] =
      [("SMA_10", c1), ("SMA_20", c2), ("SMA_50", c3), ("EMA_12", c4), ("EMA_26", c5), ("MACD", c6)] from setCol_app _ _ _ rfl]
  rw [show setCol "Signal" c7 [("SMA_10", c1), ("SMA_20", c2), ("SMA_50", c3), ("EMA_12", c4), ("EMA_26", c5), ("MACD", c6)] =
      [("SMA_10", c1), ("SMA_20", c2), ("SMA_50", c3), ("EMA_12", c4), ("EMA_26", c5), ("MACD", c6), ("Signal", c7)] from setCol_app _ _ _ rfl]
  rw [show setCol "MACD_Histogram" c8 [("SMA_10", c1), ("SMA_20", c2), ("SMA_50", c3), ("EMA_12", c4), ("EMA_26", c5), ("MACD", c6), ("Signal", c7)] =
      [("SMA_10", c1), ("SMA_20", c2), ("SMA_50", c3), ("EMA_12", c4), ("EMA_26", c5), ("MACD", c6), ("Signal", c7), ("MACD_Histogram", c8)] from setCol_app _ _ _ rfl]
  rw [show setCol "RSI" c9 [("SMA_10", c1), ("SMA_20", c2), ("SMA_50", c3), ("EMA_12", c4), ("EMA_26", c5), ("MACD", c6), ("Signal", c7), ("MACD_Histogram", c8)] =
      [("SMA_10", c1), ("SMA_20", c2), ("SMA_50", c3), ("EMA_12", c4), ("EMA_26", c5), ("MACD", c6), ("Signal", c7), ("MACD_Histogram", c8), ("RSI", c9)] from setCol_app _ _ _ rfl]
  rw [show setCol "BB_Middle" c10 [("SMA_10", c1), ("SMA_20", c2), ("SMA_50", c3), ("EMA_12", c4), ("EMA_26", c5), ("MACD", c6), ("Signal", c7), ("MACD_Histogram", c8), ("RSI", c9)] =
      [("SMA_10", c1), ("SMA_20", c2), ("SMA_50", c3), ("EMA_12", c4), ("EMA_26", c5), ("MACD", c6), ("Signal", c7), ("MACD_Histogram", c8), ("RSI", c9), ("BB_Middle", c10)] from setCol_app _ _ _ rfl]
  rw [show setCol "BB_Upper" c11 [("SMA_10", c1), ("SMA_20", c2), ("SMA_50", c3), ("EMA_12", c4), ("EMA_26", c5), ("MACD", c6), ("Signal", c7), ("MACD_Histogram", c8), ("RSI", c9), ("BB_Middle", c10)] =
      [("SMA_10", c1), ("SMA_20", c2), ("SMA_50", c3), ("EMA_12", c4), ("EMA_26", c5), ("MACD", c6), ("Signal", c7), ("MACD_Histogram", c8), ("RSI", c9), ("BB_Middle", c10), ("BB_Upper", c11)] from setCol_app _ _ _ rfl]
  rw [show setCol "BB_Lower" c12 [("SMA_10", c1), ("SMA_20", c2), ("SMA_50", c3), ("EMA_12", c4), ("EMA_26", c5), ("MACD", c6), ("Signal", c7), ("MACD_Histogram", c8), ("RSI", c9), ("BB_Middle", c10), ("BB_Upper", c11)] =
      [("SMA_10", c1), ("SMA_20", c2), ("SMA_50", c3), ("EMA_12", c4), ("EMA_26", c5), ("MACD", c6), ("Signal", c7), ("MACD_Histogram", c8), ("RSI", c9), ("BB_Middle", c10), ("BB_Upper", c11), ("BB_Lower", c12)] from setCol_app _ _ _ rfl]
  rw [show setCol "ATR" c13 [("SMA_10", c1), ("SMA_20", c2), ("SMA_50", c3), ("EMA_12", c4), ("EMA_26", c5), ("MACD", c6), ("Signal", c7), ("MACD_Histogram", c8), ("RSI", c9), ("BB_Middle", c10), ("BB_Upper", c11), ("BB_Lower", c12)] =
      [("SMA_10", c1), ("SMA_20", c2), ("SMA_50", c3), ("EMA_12", c4), ("EMA_26", c5), ("MACD", c6), ("Signal", c7), ("MACD_Histogram", c8), ("RSI", c9), ("BB_Middle", c10), ("BB_Upper", c11), ("BB_Lower", c12), ("ATR", c13)] from setCol_app _ _ _ rfl]
  rw [show setCol "Volume_SMA" c14 [("SMA_10", c1), ("SMA_20", c2), ("SMA_50", c3), ("EMA_12", c4), ("EMA_26", c5), ("MACD", c6), ("Signal", c7), ("MACD_Histogram", c8), ("RSI", c9), ("BB_Middle", c10), ("BB_Upper", c11), ("BB_Lower", c12), ("ATR", c13)] =
      [("SMA_10", c1), ("SMA_20", c2), ("SMA_50", c3), ("EMA_12", c4), ("EMA_26", c5), ("MACD", c6), ("Signal", c7), ("MACD_Histogram", c8), ("RSI", c9), ("BB_Middle", c10), ("BB_Upper", c11), ("BB_Lower", c12), ("ATR", c13), ("Volume_SMA", c14)] from setCol_app _ _ _ rfl]

theorem calculate_fresh (s : List Candle) (hs : s ≠ []) :
    calculate_technical_indicators ⟨s, []⟩ = ⟨s, indicatorCols s⟩ := by
  rw [calculate_technical_indicators, if_neg hs]
  simp only [indicatorCols]
  rw [foldl_setCol_14]

theorem colOf_apply (f : ℕ → ℚ) {n i : ℕ} (h : i < n) :
    colOf f n i = some ((f i : ℚ) : ℝ) := by
  simp only [colOf]
  rw [if_pos h]

theorem colOfO_apply (f : ℕ → Option ℝ) {n i : ℕ} (h : i < n) :
    colOfO f n i = f i := by
  simp only [colOfO]
  rw [if_pos h]

theorem getCol_SMA10 (s : List Candle) :
    getCol ⟨s, indicatorCols s⟩ "SMA_10" = some (colOf (sma 10 (closes s)) s.length) := rfl

theorem getCol_SMA20 (s : List Candle) :
    getCol ⟨s, indicatorCols s⟩ "SMA_20" = some (colOf (sma 20 (closes s)) s.length) := rfl

theorem getCol_MACD (s : List Candle) :
    getCol ⟨s, indicatorCols s⟩ "MACD" =
      some (colOf (fun i => (macdList (closes s)).getD i 0) s.length) := rfl

theorem getCol_Signal (s : List Candle) :
    getCol ⟨s, indicatorCols s⟩ "Signal" =
      some (colOf (fun i => (signalList (closes s)).getD i 0) s.length) := rfl

theorem getCol_Hist (s : List Candle) :
    getCol ⟨s, indicatorCols s⟩ "MACD_Histogram" =
      some (colOf (fun i => (histList (closes s)).getD i 0) s.length) := rfl

theorem getCol_RSI (s : List Candle) :
    getCol ⟨s, indicatorCols s⟩ "RSI" = some (colOf (rsi (closes s)) s.length) := rfl

theorem getCol_close (s : List Candle) :
    getCol ⟨s, indicatorCols s⟩ "close" =
      some (colOf (fun i => (closes s).getD i 0) s.length) := rfl

theorem getCol_BBU (s : List Candle) :
    getCol ⟨s, indicatorCols s⟩ "BB_Upper" = some (colOfO (bbUpper (closes s)) s.length) := rfl

theorem getCol_BBL (s : List Candle) :
    getCol ⟨s, indicatorCols s⟩ "BB_Lower" = some (colOfO (bbLower (closes s)) s.length) := rfl

theorem getCol_ATR (s : List Candle) :
    getCol ⟨s, indicatorCols s⟩ "ATR" = some (colOf (atr s) s.length) := rfl

theorem last_lt_length {s : List Candle} (hs : s ≠ []) : s.length - 1 < s.length := by
  have := List.length_pos.mpr hs
  omega

theorem cellAt_SMA10 (s : List Candle) (hs : s ≠ []) :
    cellAt ⟨s, indicatorCols s⟩ "SMA_10" =
      some ((sma 10 (closes s) (s.length - 1) : ℚ) : ℝ) := by
  show colOf (sma 10 (closes s)) s.length (s.length - 1) = _
  exact colOf_apply _ (last_lt_length hs)

theorem cellAt_SMA20 (s : List Candle) (hs : s ≠ []) :
    cellAt ⟨s, indicatorCols s⟩ "SMA_20" =
      some ((sma 20 (closes s) (s.length - 1) : ℚ) : ℝ) := by
  show colOf (sma 20 (closes s)) s.length (s.length - 1) = _
  exact colOf_apply _ (last_lt_length hs)

theorem cellAt_MACD (s : List Candle) (hs : s ≠ []) :
    cellAt ⟨s, indicatorCols s⟩ "MACD" =
      some (((macdList (closes s)).getD (s.length - 1) 0 : ℚ) : ℝ) := by
  show colOf (fun i => (macdList (closes s)).getD i 0) s.length (s.length - 1) = _
  exact colOf_apply _ (last_lt_length hs)

theorem cellAt_Signal (s : List Candle) (hs : s ≠ []) :
    cellAt ⟨s, indicatorCols s⟩ "Signal" =
      some (((signalList (closes s)).getD (s.length - 1) 0 : ℚ) : ℝ) := by
  show colOf (fun i => (signalList (closes s)).getD i 0) s.length (s.length - 1) = _
  exact colOf_apply _ (last_lt_length hs)

theorem cellAt_Hist (s : List Candle) (hs : s ≠ []) :
    cellAt ⟨s, indicatorCols s⟩ "MACD_Histogram" =
      some (((histList (closes s)).getD (s.length - 1) 0 : ℚ) : ℝ) := by
  show colOf (fun i => (histList (closes s)).getD i 0) s.length (s.length - 1) = _
  exact colOf_apply _ (last_lt_length hs)

theorem cellAt_RSI (s : List Candle) (hs : s ≠ []) :
    cellAt ⟨s, indicatorCols s⟩ "RSI" =
      some ((rsi (closes s) (s.length - 1) : ℚ) : ℝ) := by
  show colOf (rsi (closes s)) s.length (s.length - 1) = _
  exact colOf_apply _ (last_lt_length hs)

theorem cellAt_close (s : List Candle) (hs : s ≠ []) :
    cellAt ⟨s, indicatorCols s⟩ "close" =
      some (((closes s).getD (s.length - 1) 0 : ℚ) : ℝ) := by
  show colOf (fun i => (closes s).getD i 0) s.length (s.length - 1) = _
  exact colOf_apply _ (last_lt_length hs)

theorem cellAt_BBU (s : List Candle) (hs : s ≠ []) :
    cellAt ⟨s, indicatorCols s⟩ "BB_Upper" = bbUpper (closes s) (s.length - 1) := by
  show colOfO (bbUpper (closes s)) s.length (s.length - 1) = _
  exact colOfO_apply _ (last_lt_length hs)

theorem cellAt_BBL (s : List Candle) (hs : s ≠ []) :
    cellAt ⟨s, indicatorCols s⟩ "BB_Lower" = bbLower (closes s) (s.length - 1) := by
  show colOfO (bbLower (closes s)) s.length (s.length - 1) = _
  exact colOfO_apply _ (last_lt_length hs)

theorem missingOf_enriched (s : List Candle) (hs : s ≠ []) (u l : ℝ)
    (hU : bbUpper (closes s) (s.length - 1) = some u)
    (hL : bbLower (closes s) (s.length - 1) = some l) :
    missingOf ⟨s, indicatorCols s⟩ = [] := by
  simp only [missingOf, requiredCols, List.filter,
    getCol_SMA10, getCol_SMA20, getCol_MACD, getCol_Signal, getCol_Hist,
    getCol_RSI, getCol_close, getCol_BBU, getCol_BBL,
    cellAt_SMA10 s hs, cellAt_SMA20 s hs, cellAt_MACD s hs, cellAt_Signal s hs,
    cellAt_Hist s hs, cellAt_RSI s hs, cellAt_close s hs,
    cellAt_BBU s hs, cellAt_BBL s hs, hU, hL]
  simp

/-- The tag derivation at a flat snapshot: every comparison is an exact tie
or lands in the neutral RSI band, so no tag is produced. -/
theorem tagsOf_const (P : ℝ) : tagsOf P P 0 0 0 50 P P P = [] := by
  norm_num [tagsOf]

/- ---------------------------------------------------------------- -/
/- C1                                                                -/
/- ---------------------------------------------------------------- -/

/-- C1, counterexample.  On the two-candle closes [1, 2] the 14-window
average loss at the last index is 0 and the average gain is strictly
positive, yet the computed RSI is not 100: the unconditional
`fillna(50)` of src/main.py line 290 fires because `rs` is NaN whenever
the average loss is 0, whatever the average gain. -/
theorem rsi_allGain_cex :
    avgLoss [1, 2] 1 = 0 ∧ 0 < avgGain [1, 2] 1 ∧ rsi [1, 2] 1 ≠ 100 := by
  refine ⟨?_, ?_, ?_⟩ <;>
    norm_num [avgLoss, avgGain, rsi, sma, windowAt, gainList, lossList,
      deltaList, listMean]

/-- C1 (amended): whenever the 14-window average loss at an index is 0 —
all gains or flat alike — the computed RSI at that index is the neutral 50
(never NaN or infinity, since the zero divisor is replaced by NaN and the
final fill maps it to 50). -/
theorem rsi_neutral_on_zero_loss (xs : List ℚ) (i : ℕ) (h : avgLoss xs i = 0) :
    rsi xs i = 50 := by
  rw [rsi, if_pos h]

/-- Witness for C1: the amended theorem applied to the all-gain series. -/
theorem rsi_neutral_on_zero_loss_witness :
    avgLoss [1, 2] 1 = 0 ∧ rsi [1, 2] 1 = 50 := by
  have h : avgLoss [1, 2] 1 = 0 := by
    norm_num [avgLoss, sma, windowAt, lossList, deltaList, listMean]
  exact ⟨h, rsi_neutral_on_zero_loss [1, 2] 1 h⟩

/- ---------------------------------------------------------------- -/
/- C3                                                                -/
/- ---------------------------------------------------------------- -/

/-- C3, counterexample.  The short-series reason string of src/main.py
line 330 is capitalised: it is "Insufficient data", not the claimed
"insufficient data". -/
theorem short_series_reason_cex :
    (generate_signals (some ⟨[], []⟩)).reason = some "Insufficient data" ∧
    (generate_signals (some ⟨[], []⟩)).reason ≠ some "insufficient data" := by
  constructor
  · simp [generate_signals]
  · simp [generate_signals]

/-- C3 (amended): for any frame of fewer than 20 rows, generate_signals
returns the dictionary [signal HOLD, reason "Insufficient data"] — capital
I — with no tags, no counts and no indicator payload, whatever the
column contents, and (being a total function) without raising. -/
theorem short_series_gate (df : DFState) (h : df.series.length < 20) :
    generate_signals (some df) =
      { signal := "HOLD", reason := some "Insufficient data" } := by
  simp only [generate_signals]
  rw [if_pos h]

/-- Witness for C3: the gate applied to the empty frame. -/
theorem short_series_gate_witness :
    (⟨[], []⟩ : DFState).series.length < 20 ∧
    generate_signals (some ⟨[], []⟩) =
      { signal := "HOLD", reason := some "Insufficient data" } := by
  refine ⟨by simp, short_series_gate _ (by simp)⟩

/- ---------------------------------------------------------------- -/
/- C4                                                                -/
/- ---------------------------------------------------------------- -/

/-- C4, counterexample.  At index 0 of the one-close series [100] the
window holds a single sample, pandas `rolling(20, min_periods=1).std()`
is NaN (Bessel divides by N-1 = 0), and both bands are NaN — not equal to
the close as the claim states. -/
theorem bb_index0_cex :
    bbUpper [(100 : ℚ)] 0 = none ∧ bbLower [(100 : ℚ)] 0 = none ∧
    (none : Option ℝ) ≠ some (((100 : ℚ) : ℝ)) := by
  refine ⟨?_, ?_, by simp⟩ <;> simp [bbUpper, bbLower, bbVar, windowAt]

/-- C4 (amended): BB_Middle is the growing-window SMA(20) of closes, and
the bands equal MIDDLE plus/minus 2 times the Bessel-corrected sample
standard deviation of that window whenever the window holds at least 2
samples; with fewer than 2 samples (exactly index 0) the standard
deviation, hence both bands, is undefined (NaN), not 0. -/
theorem bb_structure (xs : List ℚ) (i : ℕ) :
    bbMiddle xs i = sma 20 xs i ∧
    bbUpper xs i =
      (if 2 ≤ (windowAt 20 xs i).length
       then some (((sma 20 xs i : ℚ) : ℝ) +
         Real.sqrt ((sampleVar (windowAt 20 xs i) : ℚ) : ℝ) * 2)
       else none) ∧
    bbLower xs i =
      (if 2 ≤ (windowAt 20 xs i).length
       then some (((sma 20 xs i : ℚ) : ℝ) -
         Real.sqrt ((sampleVar (windowAt 20 xs i) : ℚ) : ℝ) * 2)
       else none) := by
  refine ⟨rfl, ?_, ?_⟩
  · rw [bbUpper]
    simp only [bbVar]
    by_cases h : (windowAt 20 xs i).length < 2
    · rw [if_pos h, if_neg (by omega)]
      rfl
    · rw [if_neg h, if_pos (by omega)]
      rfl
  · rw [bbLower]
    simp only [bbVar]
    by_cases h : (windowAt 20 xs i).length < 2
    · rw [if_pos h, if_neg (by omega)]
      rfl
    · rw [if_neg h, if_pos (by omega)]
      rfl

/- ---------------------------------------------------------------- -/
/- C5                                                                -/
/- ---------------------------------------------------------------- -/

/-- C5, counterexample.  calculate_technical_indicators does not leave its
argument frame unchanged: on a freshly fetched one-candle frame the
post-call state of the frame object carries fourteen added indicator
columns (pandas column assignment mutates the frame in place and the same
object is returned). -/
theorem calculate_mutates_cex :
    calculate_technical_indicators dfOne ≠ dfOne := by
  intro h
  have h14 : (calculate_technical_indicators dfOne).extra.length = 14 := rfl
  rw [h] at h14
  exact absurd h14 (by norm_num [dfOne])

/-- C5 (amended): the computation writes indicator columns into the input
frame in place, so the frame object is changed; but the candle data it was
fetched with — the open/high/low/close/volume rows — is never modified. -/
theorem calculate_preserves_candles (df : DFState) :
    (calculate_technical_indicators df).series = df.series := by
  unfold calculate_technical_indicators
  split <;> rfl

/- ---------------------------------------------------------------- -/
/- C2                                                                -/
/- ---------------------------------------------------------------- -/

/-- C2: on any frame of at least 20 rows whose required indicators are all
defined at the last row (and whose ATR column exists, so the result
dictionary can be built), generate_signals returns BUY exactly when
bullish_count > bearish_count and bullish_count is at least 2, SELL
exactly when bearish_count > bullish_count and bearish_count is at least
2, and HOLD in every other case. -/
theorem aggregate_threshold (df : DFState) (h20 : 20 ≤ df.series.length)
    (hmiss : missingOf df = []) (f : Col) (hatr : getCol df "ATR" = some f) :
    ∃ b r : ℕ,
      (generate_signals (some df)).bullish_count = some b ∧
      (generate_signals (some df)).bearish_count = some r ∧
      ((generate_signals (some df)).signal = "BUY" ↔ r < b ∧ 2 ≤ b) ∧
      ((generate_signals (some df)).signal = "SELL" ↔ b < r ∧ 2 ≤ r) ∧
      ((generate_signals (some df)).signal = "HOLD" ↔
        ¬(r < b ∧ 2 ≤ b) ∧ ¬(b < r ∧ 2 ≤ r)) := by
  have hg : generate_signals (some df) = mainResult df := by
    simp only [generate_signals]
    rw [if_neg (by omega), if_neg (by simp [hmiss])]
  rw [hg]
  simp only [mainResult, hatr]
  refine ⟨_, _, rfl, rfl, ?_, ?_, ?_⟩ <;>
    (split_ifs with h1 h2 <;> simp_all) <;> omega

/-- Witness for C2 at a 20-row frame with all-ones indicator columns. -/
theorem aggregate_threshold_witness :
    (20 ≤ df20.series.length ∧ missingOf df20 = [] ∧ getCol df20 "ATR" = some oneCol) ∧
    (∃ b r : ℕ,
      (generate_signals (some df20)).bullish_count = some b ∧
      (generate_signals (some df20)).bearish_count = some r ∧
      ((generate_signals (some df20)).signal = "BUY" ↔ r < b ∧ 2 ≤ b) ∧
      ((generate_signals (some df20)).signal = "SELL" ↔ b < r ∧ 2 ≤ r) ∧
      ((generate_signals (some df20)).signal = "HOLD" ↔
        ¬(r < b ∧ 2 ≤ b) ∧ ¬(b < r ∧ 2 ≤ r))) := by
  have h20 : 20 ≤ df20.series.length := by simp [df20]
  have hmiss : missingOf df20 = [] := by rfl
  have hatr : getCol df20 "ATR" = some oneCol := by rfl
  exact ⟨⟨h20, hmiss, hatr⟩, aggregate_threshold df20 h20 hmiss oneCol hatr⟩

/- ---------------------------------------------------------------- -/
/- C6                                                                -/
/- ---------------------------------------------------------------- -/

/-- C6: on a series of at least 20 identical candles at price P, at the
last index every moving average (SMA_10/20/50, EMA_12/26) equals P, MACD
is 0, RSI is the neutral 50, all three Bollinger values equal P, ATR is 0,
and running the pipeline (indicator computation then aggregation) returns
HOLD with an empty tag list. -/
theorem constant_price_invariant (P : ℚ) (n : ℕ) (h20 : 20 ≤ n) :
    sma 10 (closes (constSeries P n)) (n - 1) = P ∧
    sma 20 (closes (constSeries P n)) (n - 1) = P ∧
    sma 50 (closes (constSeries P n)) (n - 1) = P ∧
    (emaSmooth 12 (closes (constSeries P n))).getD (n - 1) 0 = P ∧
    (emaSmooth 26 (closes (constSeries P n))).getD (n - 1) 0 = P ∧
    (macdList (closes (constSeries P n))).getD (n - 1) 0 = 0 ∧
    rsi (closes (constSeries P n)) (n - 1) = 50 ∧
    bbUpper (closes (constSeries P n)) (n - 1) = some ((P : ℝ)) ∧
    bbLower (closes (constSeries P n)) (n - 1) = some ((P : ℝ)) ∧
    bbMiddle (closes (constSeries P n)) (n - 1) = P ∧
    atr (constSeries P n) (n - 1) = 0 ∧
    (pipeline ⟨constSeries P n, []⟩).2.signal = "HOLD" ∧
    (pipeline ⟨constSeries P n, []⟩).2.signals = some [] := by
  have hm : n - 1 < n := by omega
  have h1 : 1 ≤ n - 1 := by omega
  have hcs : closes (constSeries P n) = List.replicate n P := closes_constSeries P n
  have hlen : (constSeries P n).length = n := by simp [constSeries]
  have hs : constSeries P n ≠ [] := by
    intro h
    rw [h] at hlen
    simp at hlen
    omega
  have e10 : sma 10 (List.replicate n P) (n - 1) = P := sma_replicate P (by norm_num) hm
  have e20 : sma 20 (List.replicate n P) (n - 1) = P := sma_replicate P (by norm_num) hm
  have e50 : sma 50 (List.replicate n P) (n - 1) = P := sma_replicate P (by norm_num) hm
  have e12 : (emaSmooth 12 (List.replicate n P)).getD (n - 1) 0 = P := by
    rw [emaSmooth, emaList_replicate]
    exact getD_replicate hm P 0
  have e26 : (emaSmooth 26 (List.replicate n P)).getD (n - 1) 0 = P := by
    rw [emaSmooth, emaList_replicate]
    exact getD_replicate hm P 0
  have eM : (macdList (List.replicate n P)).getD (n - 1) 0 = 0 := by
    rw [macdList_replicate]
    exact getD_replicate hm 0 0
  have eS : (signalList (List.replicate n P)).getD (n - 1) 0 = 0 := by
    rw [signalList_replicate]
    exact getD_replicate hm 0 0
  have eH : (histList (List.replicate n P)).getD (n - 1) 0 = 0 := by
    rw [histList_replicate]
    exact getD_replicate hm 0 0
  have eR : rsi (List.replicate n P) (n - 1) = 50 := rsi_replicate P hm
  have eU : bbUpper (List.replicate n P) (n - 1) = some ((P : ℝ)) := bbUpper_replicate P h1 hm
  have eL : bbLower (List.replicate n P) (n - 1) = some ((P : ℝ)) := bbLower_replicate P h1 hm
  have eBm : bbMiddle (List.replicate n P) (n - 1) = P := bbMiddle_replicate P hm
  have eC : (List.replicate n P).getD (n - 1) 0 = P := getD_replicate hm P 0
  have eA : atr (constSeries P n) (n - 1) = 0 := atr_constSeries P hm
  have hPipe : pipeline ⟨constSeries P n, []⟩ =
      (⟨constSeries P n, indicatorCols (constSeries P n)⟩,
        generate_signals (some ⟨constSeries P n, indicatorCols (constSeries P n)⟩)) := by
    simp only [pipeline]
    rw [calculate_fresh _ hs]
  have hGen : generate_signals (some ⟨constSeries P n, indicatorCols (constSeries P n)⟩) =
      mainResult ⟨constSeries P n, indicatorCols (constSeries P n)⟩ := by
    simp only [generate_signals]
    rw [if_neg (by rw [hlen]; omega), if_neg (by
      rw [missingOf_enriched _ hs ((P : ℝ)) ((P : ℝ))
        (by rw [hcs, hlen]; exact eU) (by rw [hcs, hlen]; exact eL)]
      simp)]
  have hEval : (mainResult ⟨constSeries P n, indicatorCols (constSeries P n)⟩).signal = "HOLD" ∧
      (mainResult ⟨constSeries P n, indicatorCols (constSeries P n)⟩).signals = some [] := by
    constructor <;>
    · simp only [mainResult, getCol_ATR, cellAt_SMA10 _ hs, cellAt_SMA20 _ hs,
        cellAt_MACD _ hs, cellAt_Signal _ hs, cellAt_Hist _ hs, cellAt_RSI _ hs,
        cellAt_close _ hs, cellAt_BBU _ hs, cellAt_BBL _ hs, hcs, hlen,
        e10, e20, eM, eS, eH, eR, eU, eL, eC, Option.getD_some,
        Rat.cast_zero, Rat.cast_ofNat, tagsOf_const]
      try norm_num
  refine ⟨by rw [hcs]; exact e10, by rw [hcs]; exact e20, by rw [hcs]; exact e50,
    by rw [hcs]; exact e12, by rw [hcs]; exact e26, by rw [hcs]; exact eM,
    by rw [hcs]; exact eR, by rw [hcs]; exact eU, by rw [hcs]; exact eL,
    by rw [hcs]; exact eBm, eA, ?_, ?_⟩
  · rw [hPipe]
    rw [hGen]  -- hmm rewriting inside the pair projection
    exact hEval.1
  · rw [hPipe]
    rw [hGen]
    exact hEval.2

/-- Witness for C6 at price 5 and 20 candles. -/
theorem constant_price_invariant_witness :
    (20 : ℕ) ≤ 20 ∧
    (sma 10 (closes (constSeries 5 20)) (20 - 1) = 5 ∧
     sma 20 (closes (constSeries 5 20)) (20 - 1) = 5 ∧
     sma 50 (closes (constSeries 5 20)) (20 - 1) = 5 ∧
     (emaSmooth 12 (closes (constSeries 5 20))).getD (20 - 1) 0 = 5 ∧
     (emaSmooth 26 (closes (constSeries 5 20))).getD (20 - 1) 0 = 5 ∧
     (macdList (closes (constSeries 5 20))).getD (20 - 1) 0 = 0 ∧
     rsi (closes (constSeries 5 20)) (20 - 1) = 50 ∧
     bbUpper (closes (constSeries 5 20)) (20 - 1) = some (((5 : ℚ) : ℝ)) ∧
     bbLower (closes (constSeries 5 20)) (20 - 1) = some (((5 : ℚ) : ℝ)) ∧
     bbMiddle (closes (constSeries 5 20)) (20 - 1) = 5 ∧
     atr (constSeries 5 20) (20 - 1) = 0 ∧
     (pipeline ⟨constSeries 5 20, []⟩).2.signal = "HOLD" ∧
     (pipeline ⟨constSeries 5 20, []⟩).2.signals = some []) :=
  ⟨by norm_num, constant_price_invariant 5 20 (by norm_num)⟩

/- ---------------------------------------------------------------- -/
/- C7                                                                -/
/- ---------------------------------------------------------------- -/

theorem tagsOf_bull2 (s10 s20 m sg h r c bl bu : ℝ)
    (h1 : s20 < s10) (h2 : sg < m) (h3 : 0 < h)
    (h4 : ¬ r < 30) (h5 : ¬ r > 70) (h6 : ¬ c < bl) (h7 : ¬ c > bu) :
    tagsOf s10 s20 m sg h r c bl bu =
      ["Bullish: SMA10 > SMA20", "Bullish: MACD above Signal"] := by
  rw [tagsOf, if_pos h1, if_pos ⟨h2, h3⟩, if_neg h4, if_neg h5, if_neg h6, if_neg h7]
  rfl

/-- C7: on the 25 rising candles (closes 100..124) the pipeline reports
exactly the two tags named by the spec, bullish_count 2, and signal BUY. -/
theorem uptrend_buy_scenario :
    "Bullish: SMA10 > SMA20" ∈ ((pipeline ⟨series25, []⟩).2.signals.getD []) ∧
    "Bullish: MACD above Signal" ∈ ((pipeline ⟨series25, []⟩).2.signals.getD []) ∧
    2 ≤ (pipeline ⟨series25, []⟩).2.bullish_count.getD 0 ∧
    (pipeline ⟨series25, []⟩).2.signal = "BUY" := by
  have fLen : series25.length = 25 := by
    simp only [series25, List.length_map, List.length_range]
  have hs : series25 ≠ [] := by
    intro h
    rw [h] at fLen
    simp at fLen
  have f1 : sma 20 (closes series25) 24 < sma 10 (closes series25) 24 := by
    norm_num [sma, windowAt, listMean, closes, series25, List.range_succ]
  have f2 : (signalList (closes series25)).getD 24 0 <
      (macdList (closes series25)).getD 24 0 := by
    norm_num [signalList, macdList, emaSmooth, emaList, emaFrom, closes, series25,
      List.range_succ, List.zipWith, List.getD, List.get?]
  have f3 : 0 < (histList (closes series25)).getD 24 0 := by
    norm_num [histList, signalList, macdList, emaSmooth, emaList, emaFrom, closes,
      series25, List.range_succ, List.zipWith, List.getD, List.get?]
  have f4 : rsi (closes series25) 24 = 50 := by
    norm_num [rsi, avgLoss, sma, windowAt, listMean, lossList, deltaList, closes,
      series25, List.range_succ]
  have f5 : bbVar (closes series25) 24 = some 35 := by
    norm_num [bbVar, windowAt, listMean, closes, series25, List.range_succ]
  have f6 : (closes series25).getD 24 0 = 124 := by
    norm_num [closes, series25, List.range_succ, List.getD, List.get?]
  have f7 : sma 20 (closes series25) 24 = 229 / 2 := by
    norm_num [sma, windowAt, listMean, closes, series25, List.range_succ]
  have hbu : bbUpper (closes series25) 24 =
      some ((((229 : ℚ) / 2 : ℚ) : ℝ) + Real.sqrt (((35 : ℚ) : ℝ)) * 2) := by
    rw [bbUpper, f5]
    simp only [Option.map_some']
    rw [bbMiddle, f7]
  have hbl : bbLower (closes series25) 24 =
      some ((((229 : ℚ) / 2 : ℚ) : ℝ) - Real.sqrt (((35 : ℚ) : ℝ)) * 2) := by
    rw [bbLower, f5]
    simp only [Option.map_some']
    rw [bbMiddle, f7]
  have hPipe : pipeline ⟨series25, []⟩ =
      (⟨series25, indicatorCols series25⟩,
        generate_signals (some ⟨series25, indicatorCols series25⟩)) := by
    simp only [pipeline]
    rw [calculate_fresh _ hs]
  have hGen : generate_signals (some ⟨series25, indicatorCols series25⟩) =
      mainResult ⟨series25, indicatorCols series25⟩ := by
    simp only [generate_signals]
    rw [if_neg (by rw [fLen]; omega), if_neg (by
      rw [missingOf_enriched _ hs _ _ (by rw [fLen]; exact hbu) (by rw [fLen]; exact hbl)]
      simp)]
  have h1 : ((sma 20 (closes series25) 24 : ℚ) : ℝ) < ((sma 10 (closes series25) 24 : ℚ) : ℝ) := by
    exact_mod_cast f1
  have h2 : (((signalList (closes series25)).getD 24 0 : ℚ) : ℝ) <
      (((macdList (closes series25)).getD 24 0 : ℚ) : ℝ) := by
    exact_mod_cast f2
  have h3 : (0 : ℝ) < (((histList (closes series25)).getD 24 0 : ℚ) : ℝ) := by
    exact_mod_cast f3
  have h4 : ¬ ((rsi (closes series25) 24 : ℚ) : ℝ) < 30 := by
    rw [f4]
    norm_num
  have h5 : ¬ ((rsi (closes series25) 24 : ℚ) : ℝ) > 70 := by
    rw [f4]
    norm_num
  have h6 : ¬ (((closes series25).getD 24 0 : ℚ) : ℝ) <
      (((229 : ℚ) / 2 : ℚ) : ℝ) - Real.sqrt (((35 : ℚ) : ℝ)) * 2 := by
    rw [f6]
    push_cast
    nlinarith [Real.sqrt_nonneg (35 : ℝ)]
  have h7 : ¬ (((closes series25).getD 24 0 : ℚ) : ℝ) >
      (((229 : ℚ) / 2 : ℚ) : ℝ) + Real.sqrt (((35 : ℚ) : ℝ)) * 2 := by
    rw [f6]
    push_cast
    nlinarith [Real.sq_sqrt (show (0 : ℝ) ≤ 35 by norm_num),
      Real.sqrt_nonneg (35 : ℝ)]
  have hbull : ((["Bullish: SMA10 > SMA20", "Bullish: MACD above Signal"] : List String).filter
      isBullishTag).length = 2 := by decide
  have hbear : ((["Bullish: SMA10 > SMA20", "Bullish: MACD above Signal"] : List String).filter
      isBearishTag).length = 0 := by decide
  have hEval : (mainResult ⟨series25, indicatorCols series25⟩).signal = "BUY" ∧
      (mainResult ⟨series25, indicatorCols series25⟩).signals =
        some ["Bullish: SMA10 > SMA20", "Bullish: MACD above Signal"] ∧
      (mainResult ⟨series25, indicatorCols series25⟩).bullish_count = some 2 := by
    refine ⟨?_, ?_, ?_⟩ <;>
    · simp only [mainResult, getCol_ATR, cellAt_SMA10 _ hs, cellAt_SMA20 _ hs,
        cellAt_MACD _ hs, cellAt_Signal _ hs, cellAt_Hist _ hs, cellAt_RSI _ hs,
        cellAt_close _ hs, cellAt_BBU _ hs, cellAt_BBL _ hs, fLen, hbu, hbl,
        Option.getD_some]
      rw [tagsOf_bull2 _ _ _ _ _ _ _ _ _ h1 h2 h3 h4 h5 h6 h7]
      try simp only [hbull, hbear]
      try norm_num
  rw [hPipe]
  simp only [hGen]
  rw [hEval.1, hEval.2.1, hEval.2.2]
  refine ⟨by simp, by simp, by norm_num, rfl⟩

/- ---------------------------------------------------------------- -/
/- C8                                                                -/
/- ---------------------------------------------------------------- -/

/-- C8: at every index where the computed bands are defined,
BB_UPPER - BB_MIDDLE equals BB_MIDDLE - BB_LOWER exactly (both are twice
the rolling standard deviation); at index 0 both bands are NaN together,
so no defined pair ever breaks the symmetry. -/
theorem bb_symmetric (xs : List ℚ) (i : ℕ) (u l : ℝ)
    (hu : bbUpper xs i = some u) (hl : bbLower xs i = some l) :
    u - ((bbMiddle xs i : ℚ) : ℝ) = ((bbMiddle xs i : ℚ) : ℝ) - l := by
  rw [bbUpper] at hu
  rw [bbLower] at hl
  cases hv : bbVar xs i with
  | none => rw [hv] at hu; simp at hu
  | some v =>
    rw [hv] at hu hl
    simp only [Option.map_some', Option.some.injEq] at hu hl
    rw [← hu, ← hl]
    ring

/-- Witness for C8 at the series [1, 1], index 1, where the window variance
is 0 and both bands are defined. -/
theorem bb_symmetric_witness :
    (((bbMiddle [1, 1] 1 : ℚ) : ℝ) + Real.sqrt ((0 : ℚ) : ℝ) * 2) -
        ((bbMiddle [1, 1] 1 : ℚ) : ℝ) =
      ((bbMiddle [1, 1] 1 : ℚ) : ℝ) -
        (((bbMiddle [1, 1] 1 : ℚ) : ℝ) - Real.sqrt ((0 : ℚ) : ℝ) * 2) := by
  have hv : bbVar [1, 1] 1 = some 0 := by
    norm_num [bbVar, windowAt, listMean]
  exact bb_symmetric [1, 1] 1 _ _
    (by rw [bbUpper, hv]; rfl) (by rw [bbLower, hv]; rfl)

/- ---------------------------------------------------------------- -/
/- C9                                                                -/
/- ---------------------------------------------------------------- -/

/-- C9: the pipeline is deterministic — computing indicators and then
aggregating on two identical frames yields identical enriched frames and
identical signal dictionaries (both steps are pure functions of the
frame). -/
theorem pipeline_deterministic (df1 df2 : DFState) (h : df1 = df2) :
    pipeline df1 = pipeline df2 := by rw [h]

/-- Witness for C9 on a concrete one-candle frame. -/
theorem pipeline_deterministic_witness :
    dfOne = dfOne ∧ pipeline dfOne = pipeline dfOne :=
  ⟨rfl, pipeline_deterministic dfOne dfOne rfl⟩

/- ---------------------------------------------------------------- -/
/- C10                                                               -/
/- ---------------------------------------------------------------- -/

/-- C10: for every input — a missing frame, an empty or short frame, a
frame with absent or NaN indicator columns (including the unguarded ATR
read, whose KeyError the enclosing except-handler turns into a HOLD
carrying the error text) — generate_signals returns a dictionary whose
signal is exactly one of BUY, SELL, HOLD. -/
theorem generate_signals_total (odf : Option DFState) :
    (generate_signals odf).signal = "BUY" ∨ (generate_signals odf).signal = "SELL" ∨
    (generate_signals odf).signal = "HOLD" := by
  cases odf with
  | none => exact Or.inr (Or.inr rfl)
  | some df =>
    simp only [generate_signals]
    split
    · exact Or.inr (Or.inr rfl)
    · split
      · exact Or.inr (Or.inr rfl)
      · simp only [mainResult]
        split
        · exact Or.inr (Or.inr rfl)
        · split_ifs <;> simp

end MCX
